import Mathlib

/-!
Verification of the Helios SBC telemetry service (src/app.py).

The development shallowly embeds the parts of `app.py` that the claims
concern: the shared telemetry store (`_state`, `_patch`, `_get_snapshot`),
the DJI socket-line ingestion adapter (`_apply_frame` and the reconnect
loop `_run`), the MAVSDK adapter's connect phase (`_telemetry_loop`), and
the WebSocket distribution session (`ws_telemetry`).

Python dynamic values flowing through the socket adapter are modelled by
an inductive `Json` type; Python exceptions that the code can raise are
modelled by `Except PyErr`.  Wall-clock readings (`datetime.now(...)` in
the code) are modelled as abstract `Nat` timestamps supplied as inputs.
-/

namespace Helios

/-- A JSON value as produced by `json.loads`: null, booleans, numbers,
strings, arrays and objects (association lists of string keys). -/
inductive Json where
  | null : Json
  | bool (b : Bool) : Json
  | num (q : Rat) : Json
  | str (s : String) : Json
  | arr (items : List Json) : Json
  | obj (kvs : List (String × Json)) : Json

/-- Python exceptions relevant to the embedded code that are NOT caught by
the socket adapter's `except (ConnectionError, OSError, socket.timeout)`
handler: an uncaught one kills the adapter thread. -/
inductive PyErr where
  | attributeError : PyErr
  | typeError : PyErr
deriving DecidableEq, Repr

/-- Python truthiness of a JSON-decoded value (`if pos:` in `_apply_frame`):
`None`, `False`, `0`, `""`, `[]` and `{}` are falsy, everything else truthy. -/
def truthy : Json → Bool
  | Json.null => false
  | Json.bool b => b
  | Json.num q => decide (q ≠ 0)
  | Json.str s => decide (s ≠ "")
  | Json.arr items => !items.isEmpty
  | Json.obj kvs => !kvs.isEmpty

/-- Python `dict.get(key, default)` on a decoded JSON object. -/
def objGetD (kvs : List (String × Json)) (key : String) (dflt : Json) : Json :=
  match kvs with
  | [] => dflt
  | (k, v) :: rest => if k = key then v else objGetD rest key dflt

/-- Python `dict.get(key)` on a decoded JSON object: the value, or `None`
(modelled as `Json.null`) when the key is absent. -/
def jget (kvs : List (String × Json)) (key : String) : Json :=
  objGetD kvs key Json.null

/-- Python attribute access `value.get(key)` on an arbitrary decoded value:
only dicts have a `.get` method; every other value raises `AttributeError`. -/
def pyGet (j : Json) (key : String) : Except PyErr Json :=
  match j with
  | Json.obj kvs => Except.ok (jget kvs key)
  | _ => Except.error PyErr.attributeError

/-- The shared telemetry state dictionary `_state` of app.py.  The three
telemetry groups hold whatever JSON object was last stored (the code never
validates field types), so they are modelled as `Json`.  Timestamps
(`started_at`, `last_updated`) are abstract `Nat` readings, `none` = null. -/
structure TelemetryState where
  connected : Bool
  connecting : Bool
  started_at : Option Nat
  position : Json
  attitude : Json
  battery : Json
  last_updated : Option Nat

/-- The initial value of `_state` at process start (app.py lines 40-60). -/
def _state : TelemetryState :=
  { connected := false
    connecting := true
    started_at := none
    position := Json.obj
      [("latitude_deg", Json.null), ("longitude_deg", Json.null),
       ("absolute_altitude_m", Json.null), ("relative_altitude_m", Json.null)]
    attitude := Json.obj
      [("roll_deg", Json.null), ("pitch_deg", Json.null), ("yaw_deg", Json.null)]
    battery := Json.obj
      [("voltage_v", Json.null), ("remaining_percent", Json.null)]
    last_updated := none }

/-- The keyword arguments of one `_patch(**kwargs)` call: `some v` means the
key is present in `kwargs` with value `v`, `none` means absent.  Every call
site of `_patch` in app.py passes only these six keys. -/
structure PatchArgs where
  connected : Option Bool := none
  connecting : Option Bool := none
  started_at : Option Nat := none
  position : Option Json := none
  attitude : Option Json := none
  battery : Option Json := none

/-- `_patch(**kwargs)` (app.py lines 71-75): under the lock, `_state.update(kwargs)`
rebinds exactly the keys present in `kwargs` to their new values, then
`_state["last_updated"]` is stamped with the current wall-clock reading `t`. -/
def _patch (s : TelemetryState) (p : PatchArgs) (t : Nat) : TelemetryState :=
  { connected := p.connected.getD s.connected
    connecting := p.connecting.getD s.connecting
    started_at := match p.started_at with
      | some v => some v
      | none => s.started_at
    position := p.position.getD s.position
    attitude := p.attitude.getD s.attitude
    battery := p.battery.getD s.battery
    last_updated := some t }

/-- One heterogeneous value of the `_state` dict, as it appears in a
snapshot returned by `_get_snapshot`. -/
inductive StateVal where
  | bool (b : Bool) : StateVal
  | time (t : Option Nat) : StateVal
  | group (j : Json) : StateVal

/-- The keys of `_state`, in the dict's insertion order. -/
def stateKeys : List String :=
  ["connected", "connecting", "started_at", "position", "attitude",
   "battery", "last_updated"]

/-- Lookup of one `_state` key (Python `k in _state` / `_state[k]`). -/
def stateLookup (s : TelemetryState) (k : String) : Option StateVal :=
  if k = "connected" then some (StateVal.bool s.connected)
  else if k = "connecting" then some (StateVal.bool s.connecting)
  else if k = "started_at" then some (StateVal.time s.started_at)
  else if k = "position" then some (StateVal.group s.position)
  else if k = "attitude" then some (StateVal.group s.attitude)
  else if k = "battery" then some (StateVal.group s.battery)
  else if k = "last_updated" then some (StateVal.time s.last_updated)
  else none

/-- `_get_snapshot(*keys)` (app.py lines 63-68): with keys, the dict
`{k: _state[k] for k in keys if k in _state}`; with no keys, the shallow
copy `{**_state}` of the whole dict.  Snapshots are association lists in
key order. -/
def _get_snapshot (s : TelemetryState) (keys : List String) : List (String × StateVal) :=
  (if keys.isEmpty then stateKeys else keys).filterMap
    (fun k => (stateLookup s k).map (fun v => (k, v)))

/-! ### DJI socket-line ingestion adapter (app.py lines 179-247) -/

/-- `_apply_frame`'s per-group block: `g = data.get(name)` then, when `g`
is truthy, build the fresh group dict from `g.get(field)` for each field
name.  A truthy non-dict `g` raises `AttributeError` at `g.get(...)`;
a non-dict `data` raises `AttributeError` at `data.get(name)`. -/
def buildGroup (data : Json) (name : String) (fields : List String) :
    Except PyErr (Option Json) := do
  let g ← pyGet data name
  if truthy g then
    let vals ← fields.mapM (fun f => pyGet g f)
    pure (some (Json.obj (fields.zip vals)))
  else
    pure none

/-- The field names of each telemetry group, as listed in `_apply_frame`. -/
def positionFields : List String :=
  ["latitude_deg", "longitude_deg", "absolute_altitude_m", "relative_altitude_m"]

def attitudeFields : List String := ["roll_deg", "pitch_deg", "yaw_deg"]

def batteryFields : List String := ["voltage_v", "remaining_percent"]

/-- `_apply_frame(data)` (app.py lines 182-206) up to the final `if updates:`
check: the `updates` dict, holding exactly the groups whose value in the
frame is truthy, each rebuilt as a fresh dict of the known field names. -/
def _apply_frame (data : Json) : Except PyErr PatchArgs := do
  let posU ← buildGroup data "position" positionFields
  let attU ← buildGroup data "attitude" attitudeFields
  let batU ← buildGroup data "battery" batteryFields
  pure { position := posU, attitude := attU, battery := batU }

/-- Python truthiness of the `updates` dict in `if updates: _patch(**updates)`. -/
def hasUpdates (u : PatchArgs) : Bool :=
  u.position.isSome || u.attitude.isSome || u.battery.isSome

/-- One candidate line extracted from the socket buffer, after `split` and
`strip`: blank (skipped), a line `json.loads` rejects (`JSONDecodeError`,
skipped), or a line decoding to the JSON value `j`. -/
inductive SockLine where
  | blank : SockLine
  | malformed : SockLine
  | frame (j : Json) : SockLine

/-- Processing of one buffered line by the inner read loop of `_run`
(app.py lines 226-235), at wall-clock reading `t`: blank and undecodable
lines are skipped (`continue`), a decoded frame goes through `_apply_frame`
and, when `updates` is non-empty, one `_patch(**updates)` call.  An
`AttributeError` from `_apply_frame` propagates (`Except.error`). -/
def processLine (s : TelemetryState) : SockLine × Nat → Except PyErr TelemetryState
  | (SockLine.blank, _) => Except.ok s
  | (SockLine.malformed, _) => Except.ok s
  | (SockLine.frame data, t) => do
      let u ← _apply_frame data
      if hasUpdates u then pure (_patch s u t) else pure s

/-- Processing of a sequence of buffered lines within one connection. -/
def processLines (lines : List (SockLine × Nat)) (s : TelemetryState) :
    Except PyErr TelemetryState :=
  match lines with
  | [] => Except.ok s
  | l :: rest => do
      let s1 ← processLine s l
      processLines rest s1

/-- The fault that ends the read phase of one connection, all three caught
by `except (ConnectionError, OSError, socket.timeout)`: a zero-length
`recv` (raised as `ConnectionError`), a socket `OSError`, or the 5 s read
timeout. -/
inductive EndFault where
  | zeroRead : EndFault
  | sockError : EndFault
  | readTimeout : EndFault

/-- The externally observable course of one iteration of the outer
`while True:` loop of `_run`: either `s.connect` fails (`OSError`), or the
connection opens, delivers a sequence of lines (each with the wall-clock
reading at which it is applied) and then ends in a fault. -/
inductive ConnOutcome where
  | failConnect : ConnOutcome
  | session (lines : List (SockLine × Nat)) (fault : EndFault) : ConnOutcome

/-- One iteration of the outer loop with its wall-clock readings:
`tStart` at the `connecting` patch, `tOpen` at the `connected` patch,
`tEnd` at the disconnect patch of the `except` handler. -/
structure ConnEpisode where
  outcome : ConnOutcome
  tStart : Nat
  tOpen : Nat
  tEnd : Nat

/-- One iteration of `_run`'s outer loop (app.py lines 210-244):
`_patch(connecting=True, connected=False)`; on connect failure the
`except` handler patches both flags false and sleeps the backoff; on
success `_patch(connecting=False, connected=True, started_at=now)`, the
buffered lines are processed, and the ending fault is handled the same
way.  An uncaught exception while processing a line (`AttributeError`
from `_apply_frame`) escapes the handler and is returned as an error:
the daemon thread dies. -/
def djiIteration (s : TelemetryState) (e : ConnEpisode) : Except PyErr TelemetryState :=
  let s1 := _patch s { connecting := some true, connected := some false } e.tStart
  match e.outcome with
  | ConnOutcome.failConnect =>
      Except.ok (_patch s1 { connecting := some false, connected := some false } e.tEnd)
  | ConnOutcome.session lines _ => do
      let s2 := _patch s1
        { connecting := some false, connected := some true, started_at := some e.tOpen }
        e.tOpen
      let s3 ← processLines lines s2
      pure (_patch s3 { connecting := some false, connected := some false } e.tEnd)

/-- A finite number of iterations of `_run`'s (in the code, unbounded)
outer loop.  `Except.error` means the loop was killed by an uncaught
exception; `Except.ok` means it is back at the top of the loop, about to
reconnect. -/
def djiRun (episodes : List ConnEpisode) (s : TelemetryState) :
    Except PyErr TelemetryState :=
  match episodes with
  | [] => Except.ok s
  | e :: rest => do
      let s1 ← djiIteration s e
      djiRun rest s1

/-- A frame group value that `_apply_frame` handles without raising:
falsy (skipped) or a dict. -/
def groupSafe (g : Json) : Bool :=
  !truthy g || (match g with | Json.obj _ => true | _ => false)

/-- A decoded line that `_apply_frame` handles without raising: a JSON
object whose three group values are each falsy or a dict. -/
def frameSafe : Json → Bool
  | Json.obj kvs =>
      groupSafe (jget kvs "position") && groupSafe (jget kvs "attitude") &&
        groupSafe (jget kvs "battery")
  | _ => false

def lineSafe : SockLine → Bool
  | SockLine.frame j => frameSafe j
  | _ => true

def episodeSafe (e : ConnEpisode) : Bool :=
  match e.outcome with
  | ConnOutcome.failConnect => true
  | ConnOutcome.session lines _ => lines.all (fun l => lineSafe l.1)

/-! ### MAVSDK stream ingestion adapter, connect phase (app.py lines 86-115) -/

/-- How the adapter coroutine ends its startup phase. -/
inductive AdapterEnd where
  | terminal : AdapterEnd
  | streaming : AdapterEnd
deriving DecidableEq, Repr

/-- The connect phase of `_telemetry_loop`: `hbOk` tells whether the
connection-state stream reported `is_connected=True` within the timeout.
On timeout the coroutine patches `connected=False, connecting=False`,
prints diagnostics, and `return`s — the adapter performs no further
connect attempt in this process run (`AdapterEnd.terminal`).  On success
it patches `connected=True, connecting=False, started_at=now` and goes on
to the streaming phase. -/
def mavsdkConnect (hbOk : Bool) (s : TelemetryState) (t : Nat) :
    TelemetryState × AdapterEnd :=
  if hbOk then
    (_patch s { connected := some true, connecting := some false, started_at := some t } t,
     AdapterEnd.streaming)
  else
    (_patch s { connected := some false, connecting := some false } t,
     AdapterEnd.terminal)

/-! ### WebSocket distribution session (app.py lines 324-364) -/

/-- The result of the non-blocking `ws.receive(timeout=0)` plus
`json.loads(msg)` at the top of one session tick: no (or falsy) message,
a message `json.loads` rejects, or a decoded JSON payload. -/
inductive WsMsg where
  | noMsg : WsMsg
  | badJson : WsMsg
  | payload (j : Json) : WsMsg

/-- Python `x == "all"`: only an equal string compares equal. -/
def isStrEq (x : Json) (s : String) : Bool :=
  match x with
  | Json.str t => t = s
  | _ => false

/-- The session's filter update for one tick (app.py lines 338-351).
`fields` is `none` for Python `None` (unrestricted) or `some fs` for a
list.  The inner `except (JSONDecodeError, AttributeError)` and the outer
`except Exception` both `pass`, leaving the filter unchanged; that covers
a non-dict payload (`payload.get` raises `AttributeError`) and a
`subscribe` value `"all" in subs` cannot iterate (`TypeError`).  A string
`subs` is checked for the substring `"all"`; iterating it yields 1-char
strings, none of which is a valid group name.  A dict `subs` is checked
and iterated by its keys. -/
def applySubs (fields : Option (List String)) (subs : Json) : Option (List String) :=
  match subs with
  | Json.arr items =>
      if items.any (fun x => isStrEq x "all") then none
      else some (items.filterMap (fun x =>
        match x with
        | Json.str s =>
            if s = "position" ∨ s = "attitude" ∨ s = "battery" then some s else none
        | _ => none))
  | Json.str s =>
      if (s.splitOn "all").length > 1 then none else some []
  | Json.obj kvs2 =>
      if kvs2.any (fun kv => kv.1 = "all") then none
      else some (kvs2.filterMap (fun kv =>
        if kv.1 = "position" ∨ kv.1 = "attitude" ∨ kv.1 = "battery" then
          some kv.1
        else none))
  | _ => fields

def handleControl (fields : Option (List String)) (msg : WsMsg) : Option (List String) :=
  match msg with
  | WsMsg.noMsg => fields
  | WsMsg.badJson => fields
  | WsMsg.payload j =>
    match j with
    | Json.obj kvs => applySubs fields (objGetD kvs "subscribe" (Json.arr [Json.str "all"]))
    | _ => fields

/-- The snapshot keys requested by the send step of one tick (app.py lines
354-357): `if fields:` — a `None` filter OR an empty list (both falsy)
requests all three groups; a non-empty list requests exactly those fields,
plus `last_updated` in every case. -/
def sessionKeys (fields : Option (List String)) : List String :=
  match fields with
  | some fs =>
      if fs.isEmpty then ["position", "attitude", "battery", "last_updated"]
      else fs ++ ["last_updated"]
  | none => ["position", "attitude", "battery", "last_updated"]

/-- The snapshot pushed to the client on one tick with filter `fields`. -/
def sessionSnapshot (s : TelemetryState) (fields : Option (List String)) :
    List (String × StateVal) :=
  _get_snapshot s (sessionKeys fields)

/-! ### Heap model of snapshot/patch aliasing (app.py lines 63-75)

`_get_snapshot` returns a SHALLOW copy: the snapshot dict holds the same
references to the group dicts as `_state` did at copy time.  The claim
that a caller can nevertheless never observe a later mutation rests on
`_patch` only ever REBINDING `_state`'s keys to freshly allocated dicts
(every call site builds its group dicts anew) and never writing into an
existing group dict.  We make the references explicit: a heap is a list
of allocated group objects (the address is the index, allocation appends),
the store and a snapshot each hold addresses. -/

/-- The addresses `_state` (or a shallow snapshot of it) holds for the
three group dicts. -/
structure GroupRefs where
  position : Nat
  attitude : Nat
  battery : Nat

/-- `_patch` on the heap model: for each group named in the call, append
the caller's freshly built dict to the heap and rebind the store's address
to it; unnamed groups keep their address.  No existing heap cell is ever
written. -/
def heapPatch (hr : List Json × GroupRefs) (p : PatchArgs) : List Json × GroupRefs :=
  let h := hr.1
  let r := hr.2
  let h1 := match p.position with | some v => h ++ [v] | none => h
  let pa := match p.position with | some _ => h.length | none => r.position
  let h2 := match p.attitude with | some v => h1 ++ [v] | none => h1
  let aa := match p.attitude with | some _ => h1.length | none => r.attitude
  let h3 := match p.battery with | some v => h2 ++ [v] | none => h2
  let ba := match p.battery with | some _ => h2.length | none => r.battery
  (h3, { position := pa, attitude := aa, battery := ba })

/-- A sequence of `_patch` calls on the heap model. -/
def heapPatches (ps : List PatchArgs) (hr : List Json × GroupRefs) :
    List Json × GroupRefs :=
  ps.foldl heapPatch hr

/-- What a holder of a snapshot sees when it dereferences the snapshot's
group addresses against the current heap. -/
def derefSnap (h : List Json) (r : GroupRefs) :
    Option Json × Option Json × Option Json :=
  (h[r.position]?, h[r.attitude]?, h[r.battery]?)

/-! ### Sequences of `_patch` calls -/

/-- One `_patch` call described by its kwargs and its wall-clock reading. -/
def patchStep (s : TelemetryState) (pt : PatchArgs × Nat) : TelemetryState :=
  _patch s pt.1 pt.2

/-- A sequence of `_patch` calls applied in order. -/
def applyAll (ps : List (PatchArgs × Nat)) (s : TelemetryState) : TelemetryState :=
  ps.foldl patchStep s

/-- The value the LAST call in the sequence that names the key (under the
projection `getp` out of its kwargs) gave it, if any: last-writer-wins. -/
def lastNamed {α : Type} (getp : PatchArgs → Option α) :
    List (PatchArgs × Nat) → Option α
  | [] => none
  | pt :: rest =>
      match lastNamed getp rest with
      | some v => some v
      | none => getp pt.1

/-- Comparison of stored `last_updated` stamps: null precedes everything. -/
def tsLe : Option Nat → Option Nat → Bool
  | none, _ => true
  | some _, none => false
  | some a, some b => a ≤ b

/-- The stored `last_updated` value before, between and after the calls of
a `_patch` sequence. -/
def stampTrace (ps : List (PatchArgs × Nat)) (s : TelemetryState) : List (Option Nat) :=
  (List.scanl patchStep s ps).map (fun st => st.last_updated)

/-! ### Helper lemmas -/

theorem applyAll_nil (s : TelemetryState) : applyAll [] s = s := rfl

theorem applyAll_cons (pt : PatchArgs × Nat) (rest : List (PatchArgs × Nat))
    (s : TelemetryState) : applyAll (pt :: rest) s = applyAll rest (patchStep s pt) := rfl

/-- Last-writer-wins for any state component whose update by `patchStep`
is `getD` of a kwargs projection. -/
theorem applyAll_field {α : Type} (gets : TelemetryState → α) (getp : PatchArgs → Option α)
    (hcompat : ∀ s pt, gets (patchStep s pt) = (getp pt.1).getD (gets s)) :
    ∀ (ps : List (PatchArgs × Nat)) (s : TelemetryState),
      gets (applyAll ps s) = (lastNamed getp ps).getD (gets s) := by
  intro ps
  induction ps with
  | nil => intro s; rfl
  | cons pt rest ih =>
      intro s
      rw [applyAll_cons, ih, hcompat]
      cases h : lastNamed getp rest with
      | some v => simp [lastNamed, h]
      | none => simp [lastNamed, h]

theorem applyAll_position (ps : List (PatchArgs × Nat)) (s : TelemetryState) :
    (applyAll ps s).position = (lastNamed (fun p => p.position) ps).getD s.position :=
  applyAll_field (fun st => st.position) (fun p => p.position) (fun _ _ => rfl) ps s

theorem applyAll_attitude (ps : List (PatchArgs × Nat)) (s : TelemetryState) :
    (applyAll ps s).attitude = (lastNamed (fun p => p.attitude) ps).getD s.attitude :=
  applyAll_field (fun st => st.attitude) (fun p => p.attitude) (fun _ _ => rfl) ps s

theorem applyAll_battery (ps : List (PatchArgs × Nat)) (s : TelemetryState) :
    (applyAll ps s).battery = (lastNamed (fun p => p.battery) ps).getD s.battery :=
  applyAll_field (fun st => st.battery) (fun p => p.battery) (fun _ _ => rfl) ps s

theorem applyAll_connected (ps : List (PatchArgs × Nat)) (s : TelemetryState) :
    (applyAll ps s).connected = (lastNamed (fun p => p.connected) ps).getD s.connected :=
  applyAll_field (fun st => st.connected) (fun p => p.connected) (fun _ _ => rfl) ps s

theorem applyAll_connecting (ps : List (PatchArgs × Nat)) (s : TelemetryState) :
    (applyAll ps s).connecting = (lastNamed (fun p => p.connecting) ps).getD s.connecting :=
  applyAll_field (fun st => st.connecting) (fun p => p.connecting) (fun _ _ => rfl) ps s

theorem applyAll_started_at (ps : List (PatchArgs × Nat)) (s : TelemetryState) :
    (applyAll ps s).started_at =
      (lastNamed (fun p => p.started_at.map some) ps).getD s.started_at := by
  refine applyAll_field (fun st => st.started_at) (fun p => p.started_at.map some) ?_ ps s
  intro s pt
  cases h : pt.1.started_at <;> simp [patchStep, _patch, h]

theorem applyAll_last_updated (ps : List (PatchArgs × Nat)) (s : TelemetryState) :
    (applyAll ps s).last_updated =
      (match ps.getLast? with
        | none => s.last_updated
        | some pt => some pt.2) := by
  induction ps generalizing s with
  | nil => rfl
  | cons pt rest ih =>
      rw [applyAll_cons, ih]
      cases rest with
      | nil => rfl
      | cons q qs =>
          cases hq : (q :: qs).getLast? with
          | none => exact absurd (List.getLast?_eq_none_iff.mp hq) (by simp)
          | some r => simp only [hq, List.getLast?_cons_cons]

theorem stampTrace_eq (ps : List (PatchArgs × Nat)) (s : TelemetryState) :
    stampTrace ps s = s.last_updated :: ps.map (fun pt => some pt.2) := by
  induction ps generalizing s with
  | nil => rfl
  | cons pt rest ih =>
      have h := ih (patchStep s pt)
      simp only [stampTrace] at h ⊢
      rw [List.scanl_cons, List.map_append, h]
      rfl

@[simp] theorem ok_bind {ε α β : Type} (a : α) (f : α → Except ε β) :
    ((Except.ok a : Except ε α) >>= f) = f a := rfl

@[simp] theorem err_bind {ε α β : Type} (e : ε) (f : α → Except ε β) :
    ((Except.error e : Except ε α) >>= f) = Except.error e := rfl

@[simp] theorem ok_map {ε α β : Type} (a : α) (f : α → β) :
    (f <$> (Except.ok a : Except ε α)) = Except.ok (f a) := rfl

@[simp] theorem pure_ok {ε α : Type} (a : α) :
    (pure a : Except ε α) = Except.ok a := rfl

theorem mapM_pyGet_obj (kvs : List (String × Json)) (fs : List String) :
    fs.mapM (fun f => pyGet (Json.obj kvs) f) =
      Except.ok (fs.map (fun f => jget kvs f)) := by
  induction fs with
  | nil => rfl
  | cons f rest ih =>
      rw [List.mapM_cons, ih]
      rfl

theorem buildGroup_falsy (kvs : List (String × Json)) (name : String)
    (fields : List String) (hf : truthy (jget kvs name) = false) :
    buildGroup (Json.obj kvs) name fields = Except.ok none := by
  simp [buildGroup, pyGet, hf]

theorem buildGroup_obj (kvs gkvs : List (String × Json)) (name : String)
    (fields : List String) (hg : jget kvs name = Json.obj gkvs)
    (ht : truthy (Json.obj gkvs) = true) :
    buildGroup (Json.obj kvs) name fields =
      Except.ok (some (Json.obj (fields.zip (fields.map (fun f => jget gkvs f))))) := by
  unfold buildGroup
  rw [show pyGet (Json.obj kvs) name = Except.ok (jget kvs name) from rfl, hg, ok_bind,
    if_pos ht, mapM_pyGet_obj]
  rfl

theorem buildGroup_safe (kvs : List (String × Json)) (name : String)
    (fields : List String) (hs : groupSafe (jget kvs name) = true) :
    ∃ r, buildGroup (Json.obj kvs) name fields = Except.ok r := by
  cases ht : truthy (jget kvs name) with
  | false => exact ⟨none, buildGroup_falsy kvs name fields ht⟩
  | true =>
      cases hg : jget kvs name with
      | obj gkvs =>
          rw [hg] at ht
          exact ⟨_, buildGroup_obj kvs gkvs name fields hg ht⟩
      | null => rw [hg] at ht; simp [truthy] at ht
      | bool b => rw [hg] at hs ht; simp [groupSafe, ht] at hs
      | num q => rw [hg] at hs ht; simp [groupSafe, ht] at hs
      | str s => rw [hg] at hs ht; simp [groupSafe, ht] at hs
      | arr items => rw [hg] at hs ht; simp [groupSafe, ht] at hs

theorem apply_frame_safe (j : Json) (hs : frameSafe j = true) :
    ∃ u, _apply_frame j = Except.ok u := by
  cases j with
  | null => simp [frameSafe] at hs
  | bool b => simp [frameSafe] at hs
  | num q => simp [frameSafe] at hs
  | str s => simp [frameSafe] at hs
  | arr items => simp [frameSafe] at hs
  | obj kvs =>
      unfold frameSafe at hs
      simp only [Bool.and_eq_true] at hs
      obtain ⟨⟨h1, h2⟩, h3⟩ := hs
      obtain ⟨r1, e1⟩ := buildGroup_safe kvs "position" positionFields h1
      obtain ⟨r2, e2⟩ := buildGroup_safe kvs "attitude" attitudeFields h2
      obtain ⟨r3, e3⟩ := buildGroup_safe kvs "battery" batteryFields h3
      exact ⟨{ position := r1, attitude := r2, battery := r3 },
        by simp [_apply_frame, e1, e2, e3]⟩

theorem processLine_safe (s : TelemetryState) (l : SockLine × Nat)
    (hl : lineSafe l.1 = true) : ∃ s1, processLine s l = Except.ok s1 := by
  obtain ⟨line, t⟩ := l
  cases line with
  | blank => exact ⟨s, rfl⟩
  | malformed => exact ⟨s, rfl⟩
  | frame j =>
      obtain ⟨u, hu⟩ := apply_frame_safe j hl
      cases h : hasUpdates u with
      | true => exact ⟨_patch s u t, by simp [processLine, hu, h]⟩
      | false => exact ⟨s, by simp [processLine, hu, h]⟩

theorem processLines_safe (lines : List (SockLine × Nat)) (s : TelemetryState)
    (h : lines.all (fun l => lineSafe l.1) = true) :
    ∃ s1, processLines lines s = Except.ok s1 := by
  induction lines generalizing s with
  | nil => exact ⟨s, rfl⟩
  | cons l rest ih =>
      simp only [List.all_cons, Bool.and_eq_true] at h
      obtain ⟨s1, h1⟩ := processLine_safe s l h.1
      obtain ⟨s2, h2⟩ := ih s1 h.2
      exact ⟨s2, by simp [processLines, h1, h2]⟩

theorem djiIteration_safe (s : TelemetryState) (e : ConnEpisode)
    (he : episodeSafe e = true) :
    ∃ s1, djiIteration s e = Except.ok s1 ∧ s1.connected = false ∧
      s1.connecting = false := by
  cases ho : e.outcome with
  | failConnect =>
      refine ⟨_patch (_patch s { connecting := some true, connected := some false } e.tStart)
        { connecting := some false, connected := some false } e.tEnd, ?_, rfl, rfl⟩
      simp [djiIteration, ho]
  | session lines fault =>
      unfold episodeSafe at he
      rw [ho] at he
      obtain ⟨s3, h3⟩ := processLines_safe lines
        (_patch (_patch s { connecting := some true, connected := some false } e.tStart)
          { connecting := some false, connected := some true, started_at := some e.tOpen }
          e.tOpen) he
      refine ⟨_patch s3 { connecting := some false, connected := some false } e.tEnd,
        ?_, rfl, rfl⟩
      simp [djiIteration, ho, h3]

theorem djiRun_safe (episodes : List ConnEpisode) (s : TelemetryState)
    (h : episodes.all episodeSafe = true) :
    ∃ s1, djiRun episodes s = Except.ok s1 ∧
      (episodes ≠ [] → s1.connected = false ∧ s1.connecting = false) := by
  induction episodes generalizing s with
  | nil => exact ⟨s, rfl, fun hne => absurd rfl hne⟩
  | cons e rest ih =>
      simp only [List.all_cons, Bool.and_eq_true] at h
      obtain ⟨s1, h1, hc, hn⟩ := djiIteration_safe s e h.1
      obtain ⟨s2, h2, himp⟩ := ih s1 h.2
      refine ⟨s2, by simp [djiRun, h1, h2], fun _ => ?_⟩
      cases rest with
      | nil =>
          have : s1 = s2 := by
            have := h2
            simp [djiRun] at this
            exact this
          exact ⟨this ▸ hc, this ▸ hn⟩
      | cons e2 rest2 => exact himp (by simp)

theorem exists_ext_of_step (h : List Json) (o : Option Json) :
    ∃ e, (match o with | some v => h ++ [v] | none => h) = h ++ e := by
  cases o with
  | none => exact ⟨[], by simp⟩
  | some v => exact ⟨[v], rfl⟩

theorem heapPatch_heap (hr : List Json × GroupRefs) (p : PatchArgs) :
    ∃ ext, (heapPatch hr p).1 = hr.1 ++ ext := by
  obtain ⟨h, r⟩ := hr
  cases hp : p.position <;> cases ha : p.attitude <;> cases hb : p.battery <;>
    simp [heapPatch, hp, ha, hb]

theorem heapPatches_heap (ps : List PatchArgs) (hr : List Json × GroupRefs) :
    ∃ ext, (heapPatches ps hr).1 = hr.1 ++ ext := by
  induction ps generalizing hr with
  | nil => exact ⟨[], by simp [heapPatches]⟩
  | cons p rest ih =>
      obtain ⟨e1, h1⟩ := heapPatch_heap hr p
      obtain ⟨e2, h2⟩ := ih (heapPatch hr p)
      refine ⟨e1 ++ e2, ?_⟩
      have : heapPatches (p :: rest) hr = heapPatches rest (heapPatch hr p) := rfl
      rw [this, h2, h1, List.append_assoc]

/-- `buildGroup` never returns `Except.ok r` with the wrong presence: when it
succeeds, the group is present in `updates` exactly when its frame value is
truthy.  Stated for a non-empty field list, as in all three call sites. -/
theorem buildGroup_ok_isSome (kvs : List (String × Json)) (name : String)
    (f0 : String) (fs : List String) (r : Option Json)
    (h : buildGroup (Json.obj kvs) name (f0 :: fs) = Except.ok r) :
    r.isSome = truthy (jget kvs name) := by
  cases ht : truthy (jget kvs name) with
  | false =>
      rw [buildGroup_falsy kvs name (f0 :: fs) ht] at h
      cases h
      rfl
  | true =>
      cases hg : jget kvs name with
      | obj gkvs =>
          rw [hg] at ht
          rw [buildGroup_obj kvs gkvs name (f0 :: fs) hg ht] at h
          cases h
          rfl
      | null => rw [hg] at ht; simp [truthy] at ht
      | bool b =>
          rw [hg] at ht
          unfold buildGroup at h
          rw [show pyGet (Json.obj kvs) name = Except.ok (jget kvs name) from rfl, hg] at h
          simp [ht, List.mapM.loop, pyGet] at h
      | num q =>
          rw [hg] at ht
          unfold buildGroup at h
          rw [show pyGet (Json.obj kvs) name = Except.ok (jget kvs name) from rfl, hg] at h
          simp [ht, List.mapM.loop, pyGet] at h
      | str s =>
          rw [hg] at ht
          unfold buildGroup at h
          rw [show pyGet (Json.obj kvs) name = Except.ok (jget kvs name) from rfl, hg] at h
          simp [ht, List.mapM.loop, pyGet] at h
      | arr items =>
          rw [hg] at ht
          unfold buildGroup at h
          rw [show pyGet (Json.obj kvs) name = Except.ok (jget kvs name) from rfl, hg] at h
          simp [ht, List.mapM.loop, pyGet] at h

/-! ### The claims -/

/-- C1: for every sequence of `_patch` calls applied to the fresh store, a
subsequent `get()` with no arguments returns the union of all previously
patched top-level keys with last-writer-wins per key (keys never patched
keep their initial values), and the returned `last_updated` equals the
timestamp stamped by the most recent `_patch` call (null when there was
none). -/
theorem get_reflects_patch_union (ps : List (PatchArgs × Nat)) :
    _get_snapshot (applyAll ps _state) [] =
      [("connected", StateVal.bool ((lastNamed (fun p => p.connected) ps).getD false)),
       ("connecting", StateVal.bool ((lastNamed (fun p => p.connecting) ps).getD true)),
       ("started_at", StateVal.time ((lastNamed (fun p => p.started_at.map some) ps).getD none)),
       ("position", StateVal.group ((lastNamed (fun p => p.position) ps).getD _state.position)),
       ("attitude", StateVal.group ((lastNamed (fun p => p.attitude) ps).getD _state.attitude)),
       ("battery", StateVal.group ((lastNamed (fun p => p.battery) ps).getD _state.battery)),
       ("last_updated", StateVal.time (match ps.getLast? with
          | none => none
          | some pt => some pt.2))] := by
  have hsnap : ∀ st : TelemetryState, _get_snapshot st [] =
      [("connected", StateVal.bool st.connected), ("connecting", StateVal.bool st.connecting),
       ("started_at", StateVal.time st.started_at), ("position", StateVal.group st.position),
       ("attitude", StateVal.group st.attitude), ("battery", StateVal.group st.battery),
       ("last_updated", StateVal.time st.last_updated)] := fun st => rfl
  rw [hsnap]
  rw [applyAll_connected, applyAll_connecting, applyAll_started_at, applyAll_position,
    applyAll_attitude, applyAll_battery, applyAll_last_updated]
  rfl

/-- C2: `_patch` replaces exactly the top-level keys named in the call, each
named group wholesale, and leaves every key not named in the call exactly
unchanged; and a socket frame naming only `battery` (its `position` and
`attitude` values falsy) leaves `position` and `attitude` exactly as they
were. -/
theorem patch_group_isolation :
    (∀ (s : TelemetryState) (p : PatchArgs) (t : Nat),
      (p.position = none → (_patch s p t).position = s.position) ∧
      (p.attitude = none → (_patch s p t).attitude = s.attitude) ∧
      (p.battery = none → (_patch s p t).battery = s.battery) ∧
      (∀ v, p.position = some v → (_patch s p t).position = v) ∧
      (∀ v, p.attitude = some v → (_patch s p t).attitude = v) ∧
      (∀ v, p.battery = some v → (_patch s p t).battery = v)) ∧
    (∀ (s : TelemetryState) (t : Nat) (kvs : List (String × Json)) (s1 : TelemetryState),
      truthy (jget kvs "position") = false →
      truthy (jget kvs "attitude") = false →
      processLine s (SockLine.frame (Json.obj kvs), t) = Except.ok s1 →
      s1.position = s.position ∧ s1.attitude = s.attitude) := by
  constructor
  · intro s p t
    refine ⟨fun h => ?_, fun h => ?_, fun h => ?_,
      fun v h => ?_, fun v h => ?_, fun v h => ?_⟩ <;> simp [_patch, h]
  · intro s t kvs s1 hp ha hl
    have e1 := buildGroup_falsy kvs "position" positionFields hp
    have e2 := buildGroup_falsy kvs "attitude" attitudeFields ha
    cases e3 : buildGroup (Json.obj kvs) "battery" batteryFields with
    | error err => simp [processLine, _apply_frame, e1, e2, e3] at hl
    | ok r3 =>
        have happ : _apply_frame (Json.obj kvs) =
            Except.ok { position := none, attitude := none, battery := r3 } := by
          simp [_apply_frame, e1, e2, e3]
        cases r3 with
        | none =>
            simp [processLine, happ, hasUpdates] at hl
            exact ⟨by rw [← hl], by rw [← hl]⟩
        | some bv =>
            simp [processLine, happ, hasUpdates] at hl
            rw [← hl]
            exact ⟨rfl, rfl⟩

theorem patch_group_isolation_witness :
    (_patch _state { battery := some (Json.obj [("voltage_v", Json.num 12)]) } 5).position =
      _state.position ∧
    (∃ s1, processLine _state
        (SockLine.frame (Json.obj [("battery", Json.obj [("voltage_v", Json.num 12)])]), 7) =
        Except.ok s1 ∧ s1.position = _state.position ∧ s1.attitude = _state.attitude) :=
  ⟨(patch_group_isolation.1 _state { battery := some (Json.obj [("voltage_v", Json.num 12)]) } 5).1
      rfl,
   ⟨_, rfl, patch_group_isolation.2 _state 7 [("battery", Json.obj [("voltage_v", Json.num 12)])]
      _ rfl rfl rfl⟩⟩

/-- C3 counterexample: a subscribe message with no valid group name yields the
filter `some []`, and the snapshot then pushed contains all three groups —
not only `last_updated` — because `if fields:` treats the empty list as
falsy and falls back to the full snapshot. -/
theorem empty_filter_counterexample :
    handleControl none
        (WsMsg.payload (Json.obj [("subscribe", Json.arr [Json.str "bogus"])])) = some [] ∧
    (sessionSnapshot _state (some [])).map Prod.fst =
      ["position", "attitude", "battery", "last_updated"] :=
  ⟨rfl, rfl⟩

/-- C3 amended: a subscribe control message whose list contains no valid group
name and no `"all"` sets the empty filter, and every subsequently pushed
snapshot then contains all three groups plus `last_updated` (the send step
treats the empty filter as unrestricted), and the filter persists across
ticks with no (or undecodable) inbound message until a later subscribe
changes it. -/
theorem empty_filter_full_snapshot (f0 : Option (List String))
    (kvs : List (String × Json)) (items : List Json)
    (hsub : objGetD kvs "subscribe" (Json.arr [Json.str "all"]) = Json.arr items)
    (hall : items.all (fun x => !isStrEq x "all") = true)
    (hvalid : items.all (fun x =>
      !(isStrEq x "position" || isStrEq x "attitude" || isStrEq x "battery")) = true) :
    handleControl f0 (WsMsg.payload (Json.obj kvs)) = some [] ∧
    (∀ st : TelemetryState, (sessionSnapshot st (some [])).map Prod.fst =
      ["position", "attitude", "battery", "last_updated"]) ∧
    handleControl (some []) WsMsg.noMsg = some [] ∧
    handleControl (some []) WsMsg.badJson = some [] := by
  refine ⟨?_, fun st => rfl, rfl, rfl⟩
  show applySubs f0 (objGetD kvs "subscribe" (Json.arr [Json.str "all"])) = some []
  rw [hsub]
  simp only [applySubs]
  have hany : items.any (fun x => isStrEq x "all") = false := by
    rw [List.any_eq_false]
    intro x hx
    have := List.all_eq_true.mp hall x hx
    simpa using this
  rw [hany]
  simp only [Bool.false_eq_true, if_false]
  congr 1
  rw [List.filterMap_eq_nil_iff]
  intro x hx
  have hv := List.all_eq_true.mp hvalid x hx
  cases x with
  | str s =>
      simp [isStrEq] at hv
      simp [hv]
  | null => rfl
  | bool b => rfl
  | num q => rfl
  | arr l => rfl
  | obj o => rfl

theorem empty_filter_full_snapshot_witness :
    handleControl none
        (WsMsg.payload (Json.obj [("subscribe", Json.arr [Json.str "bogus"])])) = some [] ∧
    (∀ st : TelemetryState, (sessionSnapshot st (some [])).map Prod.fst =
      ["position", "attitude", "battery", "last_updated"]) ∧
    handleControl (some []) WsMsg.noMsg = some [] ∧
    handleControl (some []) WsMsg.badJson = some [] :=
  empty_filter_full_snapshot none [("subscribe", Json.arr [Json.str "bogus"])]
    [Json.str "bogus"] rfl rfl rfl

/-- C4 counterexample: in the initial `_state`, before any write, the
`connecting` flag is `True`, not `False` (app.py line 42). -/
theorem initial_state_connecting_true : _state.connecting = true := rfl

/-- C4 amended: in the initial `_state`, before any write, every field is
null or false — `connected` is false, `started_at` and `last_updated` are
null, and every numeric field in `position`, `attitude` and `battery` is
null — EXCEPT `connecting`, which starts `True` (the store is created
already in its connecting phase). -/
theorem initial_state_defaults :
    _state.connected = false ∧ _state.connecting = true ∧ _state.started_at = none ∧
    _state.last_updated = none ∧
    _state.position = Json.obj
      [("latitude_deg", Json.null), ("longitude_deg", Json.null),
       ("absolute_altitude_m", Json.null), ("relative_altitude_m", Json.null)] ∧
    _state.attitude = Json.obj
      [("roll_deg", Json.null), ("pitch_deg", Json.null), ("yaw_deg", Json.null)] ∧
    _state.battery = Json.obj
      [("voltage_v", Json.null), ("remaining_percent", Json.null)] :=
  ⟨rfl, rfl, rfl, rfl, rfl, rfl, rfl⟩

/-- C5 counterexample: a received line that decodes to valid JSON of
non-object shape (here the line `1`) raises `AttributeError` at
`data.get("position")`, which the adapter's `except (ConnectionError,
OSError, socket.timeout)` handler does not catch: the adapter thread dies
— a permanent failure state — refuting "for every received byte sequence
... it never reaches a permanent failure state". -/
theorem dji_nonobject_frame_crash :
    djiRun [⟨ConnOutcome.session [(SockLine.frame (Json.num 1), 2)] EndFault.zeroRead, 0, 1, 3⟩]
      _state = Except.error PyErr.attributeError := rfl

/-- C5 amended: for every fault (connect failure, zero-length read, socket
error, read timeout) and every received byte sequence whose decoded lines
are JSON objects with falsy-or-object group values (blank and undecodable
lines included), the adapter patches `connected=False`, sleeps the backoff
and returns to the connecting phase, never reaching a permanent failure
state; but a line decoding to valid JSON of non-object shape (or with a
truthy non-object group value) raises an uncaught `AttributeError` that
kills the adapter thread. -/
theorem dji_safe_lines_resilient (episodes : List ConnEpisode) (s : TelemetryState)
    (h : episodes.all episodeSafe = true) :
    ∃ s1, djiRun episodes s = Except.ok s1 ∧
      (episodes ≠ [] → s1.connected = false ∧ s1.connecting = false) :=
  djiRun_safe episodes s h

theorem dji_safe_lines_resilient_witness :
    ([⟨ConnOutcome.session [(SockLine.malformed, 2), (SockLine.blank, 2)] EndFault.zeroRead, 0, 1, 3⟩,
      ⟨ConnOutcome.failConnect, 4, 4, 6⟩] : List ConnEpisode).all episodeSafe = true ∧
    ∃ s1, djiRun
        [⟨ConnOutcome.session [(SockLine.malformed, 2), (SockLine.blank, 2)] EndFault.zeroRead, 0, 1, 3⟩,
         ⟨ConnOutcome.failConnect, 4, 4, 6⟩] _state = Except.ok s1 ∧
      (([⟨ConnOutcome.session [(SockLine.malformed, 2), (SockLine.blank, 2)] EndFault.zeroRead, 0, 1, 3⟩,
         ⟨ConnOutcome.failConnect, 4, 4, 6⟩] : List ConnEpisode) ≠ [] →
        s1.connected = false ∧ s1.connecting = false) :=
  ⟨rfl, dji_safe_lines_resilient
    [⟨ConnOutcome.session [(SockLine.malformed, 2), (SockLine.blank, 2)] EndFault.zeroRead, 0, 1, 3⟩,
     ⟨ConnOutcome.failConnect, 4, 4, 6⟩] _state rfl⟩

/-- C6: if the MAVSDK connection-state source never reports
`is_connected=True` within the timeout, the adapter patches
`connected=False, connecting=False`, terminates (`AdapterEnd.terminal`,
i.e. the coroutine `return`s and no further connect attempt happens in
this process run), and the telemetry groups and `started_at` are left
unchanged by this failure path. -/
theorem mavsdk_timeout_terminal (hbOk : Bool) (s : TelemetryState) (t : Nat)
    (h : hbOk = false) :
    (mavsdkConnect hbOk s t).2 = AdapterEnd.terminal ∧
    (mavsdkConnect hbOk s t).1.connected = false ∧
    (mavsdkConnect hbOk s t).1.connecting = false ∧
    (mavsdkConnect hbOk s t).1.position = s.position ∧
    (mavsdkConnect hbOk s t).1.attitude = s.attitude ∧
    (mavsdkConnect hbOk s t).1.battery = s.battery ∧
    (mavsdkConnect hbOk s t).1.started_at = s.started_at := by
  subst h
  exact ⟨rfl, rfl, rfl, rfl, rfl, rfl, rfl⟩

theorem mavsdk_timeout_terminal_witness :
    (mavsdkConnect false _state 3).2 = AdapterEnd.terminal ∧
    (mavsdkConnect false _state 3).1.connected = false ∧
    (mavsdkConnect false _state 3).1.connecting = false ∧
    (mavsdkConnect false _state 3).1.position = _state.position ∧
    (mavsdkConnect false _state 3).1.attitude = _state.attitude ∧
    (mavsdkConnect false _state 3).1.battery = _state.battery ∧
    (mavsdkConnect false _state 3).1.started_at = _state.started_at :=
  mavsdk_timeout_terminal false _state 3 rfl

/-- C7: a received socket line that fails to JSON-decode is dropped with no
change to the store and no change to the connection: processing any line
sequence with the malformed line inserted equals processing the sequence
without it, so every valid frame after it on the same connection is still
applied. -/
theorem malformed_line_dropped (pre post : List (SockLine × Nat)) (t : Nat)
    (s : TelemetryState) :
    processLines (pre ++ (SockLine.malformed, t) :: post) s =
      processLines (pre ++ post) s := by
  induction pre generalizing s with
  | nil => rfl
  | cons l rest ih =>
      simp only [List.cons_append, processLines]
      cases hl : processLine s l with
      | error e => simp [hl]
      | ok s1 => simp [hl, ih s1]

/-- C8: a snapshot taken by `_get_snapshot` holds the same references to the
group dicts as `_state` did at copy time (shallow copy), yet no sequence of
later `_patch` calls changes what the snapshot holder sees: `_patch` only
appends freshly allocated group dicts to the heap and rebinds `_state`'s
keys, never writing into an existing group dict. -/
theorem snapshot_immune_to_patches (h : List Json) (r : GroupRefs) (ps : List PatchArgs)
    (hp : r.position < h.length) (ha : r.attitude < h.length)
    (hb : r.battery < h.length) :
    derefSnap (heapPatches ps (h, r)).1 r = derefSnap h r := by
  obtain ⟨ext, hext⟩ := heapPatches_heap ps (h, r)
  rw [show ((h, r) : List Json × GroupRefs).1 = h from rfl] at hext
  rw [hext]
  unfold derefSnap
  rw [List.getElem?_append_left hp, List.getElem?_append_left ha,
    List.getElem?_append_left hb]

theorem snapshot_immune_to_patches_witness :
    derefSnap
      (heapPatches [{ battery := some (Json.obj [("voltage_v", Json.num 11)]) }]
        ([Json.obj [], Json.obj [], Json.obj []], ⟨0, 1, 2⟩)).1
      ⟨0, 1, 2⟩ =
    derefSnap [Json.obj [], Json.obj [], Json.obj []] ⟨0, 1, 2⟩ :=
  snapshot_immune_to_patches [Json.obj [], Json.obj [], Json.obj []] ⟨0, 1, 2⟩
    [{ battery := some (Json.obj [("voltage_v", Json.num 11)]) }]
    (by decide) (by decide) (by decide)

/-- C9: every `_patch` call — whatever its kwargs — sets `last_updated` to
the wall-clock reading of that update, and along any sequence of `_patch`
calls whose wall-clock readings are chronological (non-decreasing, and not
before the stamp already stored), the stored `last_updated` trace is
monotonically non-decreasing. -/
theorem last_updated_stamped_monotone :
    (∀ (s : TelemetryState) (p : PatchArgs) (t : Nat),
      (_patch s p t).last_updated = some t) ∧
    (∀ (ps : List (PatchArgs × Nat)) (s : TelemetryState),
      List.Chain' (fun a b => tsLe a b = true)
        (s.last_updated :: ps.map (fun pt => some pt.2)) →
      List.Chain' (fun a b => tsLe a b = true) (stampTrace ps s)) := by
  refine ⟨fun s p t => rfl, fun ps s h => ?_⟩
  rw [stampTrace_eq]
  exact h

theorem last_updated_stamped_monotone_witness :
    (_patch _state { connected := some true } 4).last_updated = some 4 ∧
    List.Chain' (fun a b => tsLe a b = true)
      (stampTrace [({ connected := some true }, 4),
        ({ battery := some (Json.obj []) }, 6)] _state) :=
  ⟨last_updated_stamped_monotone.1 _state { connected := some true } 4,
   last_updated_stamped_monotone.2
     [({ connected := some true }, 4), ({ battery := some (Json.obj []) }, 6)] _state
     (by simp [List.chain'_cons, List.chain'_singleton, tsLe, _state])⟩

/-- C10: for every decoded socket frame, the presence of a group in the
update is decided by the truthiness of its value, not by key membership:
when `_apply_frame` succeeds, a group is in `updates` exactly when its
value in the frame is truthy (so an empty object, null, 0 or false is
omitted); and a frame in which no group is truthy produces no `_patch`
call at all, leaving the entire store — `last_updated` included —
unchanged. -/
theorem frame_truthiness_gating (kvs : List (String × Json)) :
    (∀ u, _apply_frame (Json.obj kvs) = Except.ok u →
      u.position.isSome = truthy (jget kvs "position") ∧
      u.attitude.isSome = truthy (jget kvs "attitude") ∧
      u.battery.isSome = truthy (jget kvs "battery")) ∧
    (truthy (jget kvs "position") = false →
     truthy (jget kvs "attitude") = false →
     truthy (jget kvs "battery") = false →
     ∀ (s : TelemetryState) (t : Nat),
       processLine s (SockLine.frame (Json.obj kvs), t) = Except.ok s) := by
  constructor
  · intro u happ
    cases e1 : buildGroup (Json.obj kvs) "position" positionFields with
    | error err => simp [_apply_frame, e1] at happ
    | ok r1 =>
        cases e2 : buildGroup (Json.obj kvs) "attitude" attitudeFields with
        | error err => simp [_apply_frame, e1, e2] at happ
        | ok r2 =>
            cases e3 : buildGroup (Json.obj kvs) "battery" batteryFields with
            | error err => simp [_apply_frame, e1, e2, e3] at happ
            | ok r3 =>
                have hu : ({ position := r1, attitude := r2, battery := r3 } : PatchArgs) = u := by
                  simp [_apply_frame, e1, e2, e3] at happ
                  exact happ
                subst hu
                exact ⟨buildGroup_ok_isSome kvs "position" _ _ r1 e1,
                  buildGroup_ok_isSome kvs "attitude" _ _ r2 e2,
                  buildGroup_ok_isSome kvs "battery" _ _ r3 e3⟩
  · intro hp ha hb s t
    have e1 := buildGroup_falsy kvs "position" positionFields hp
    have e2 := buildGroup_falsy kvs "attitude" attitudeFields ha
    have e3 := buildGroup_falsy kvs "battery" batteryFields hb
    simp [processLine, _apply_frame, e1, e2, e3, hasUpdates]

theorem frame_truthiness_gating_witness :
    processLine _state
      (SockLine.frame (Json.obj
        [("position", Json.obj []), ("attitude", Json.num 0),
         ("battery", Json.bool false)]), 9) = Except.ok _state ∧
    (∃ u, _apply_frame (Json.obj [("battery", Json.obj [("voltage_v", Json.num 12)])]) =
        Except.ok u ∧ u.position = none ∧ u.battery.isSome = true) := by
  constructor
  · exact (frame_truthiness_gating
      [("position", Json.obj []), ("attitude", Json.num 0), ("battery", Json.bool false)]).2
      rfl (by decide) rfl _state 9
  · refine ⟨_, rfl, ?_, ?_⟩
    · have h1 := ((frame_truthiness_gating
        [("battery", Json.obj [("voltage_v", Json.num 12)])]).1 _ rfl).1
      have h2 : ∀ o : Option Json, o.isSome = false → o = none := by
        intro o ho
        cases o with
        | none => rfl
        | some v => simp at ho
      exact h2 _ h1
    · exact ((frame_truthiness_gating
        [("battery", Json.obj [("voltage_v", Json.num 12)])]).1 _ rfl).2.2

end Helios
